import Mathlib

/-!
# Verification of `scripts/export_cert.py`

A shallow embedding of the certificate-export script.  The script is a
linear pipeline: load a `.env` configuration, clean stale artifacts,
create and unlock a temporary keychain, invoke the external `security`
utility to export identities into a PKCS#12 file, verify the file by
importing it into a disposable keychain, and base64-encode the result.

The embedding models:
* the `.env` loader (line stripping, `KEY=VALUE` splitting, quote
  stripping) as pure functions on lists of characters;
* Python's `base64.b64encode` as a pure function on byte lists;
* the script body as a deterministic function from the parsed
  configuration and an environment of external observations (command
  results, file-existence answers, file contents) to a trace of
  observable events plus a final outcome.
-/

namespace ExportCert

/-! ## Characters and Python-style stripping -/

/-- The double-quote character. -/
def dq : Char := Char.ofNat 34

/-- The single-quote character. -/
def sq : Char := Char.ofNat 39

/-- Membership in the strip set of `val.strip("\x22'")` (line 21). -/
def isQuote (c : Char) : Bool := c = dq || c = sq

/-- ASCII whitespace stripped by Python's `str.strip()` (line 14). -/
def isPyWs (c : Char) : Bool :=
  c = Char.ofNat 32 || c = Char.ofNat 9 || c = Char.ofNat 10 ||
  c = Char.ofNat 13 || c = Char.ofNat 11 || c = Char.ofNat 12

/-- Python `s.strip(chars)`: remove the characters satisfying `p` from both
ends of the string. -/
def stripBoth (p : Char → Bool) (l : List Char) : List Char :=
  ((l.dropWhile p).reverse.dropWhile p).reverse

/-- `line.strip()` of the loader (line 14). -/
def stripWs (l : List Char) : List Char := stripBoth isPyWs l

/-- `val.strip("\x22'")` of the loader (line 21). -/
def stripQuotes (l : List Char) : List Char := stripBoth isQuote l

/-- The split performed by `re.match(r"^([^=]+)=(.*)$", line)`: the key is
the (non-empty) run of characters before the first `=`, the value is
everything after it.  `none` when the line has no `=`. -/
def splitFirstEq : List Char → Option (List Char × List Char)
  | [] => none
  | c :: rest =>
    if c = '=' then some ([], rest)
    else
      match splitFirstEq rest with
      | some (k, v) => some (c :: k, v)
      | none => none

/-- One iteration of the loader loop (lines 13–22): strip the line, skip
blank lines and `#` comments, split at the first `=` (the key must be
non-empty), and strip quotes from the value. -/
def parseKVL (line : List Char) : Option (List Char × List Char) :=
  let l := stripWs line
  if l = [] then none
  else if l.head? = some '#' then none
  else
    match splitFirstEq l with
    | some (k, v) => if k = [] then none else some (k, stripQuotes v)
    | none => none

/-- String-level wrapper of `parseKVL`. -/
def parseKV (line : String) : Option (String × String) :=
  (parseKVL line.toList).map fun kv => (String.mk kv.1, String.mk kv.2)

/-- `env_vars` after the loading loop, as an association list in file
order; a later line with the same key overwrites an earlier one via
`envGet`. -/
def loadEnv (lines : List String) : List (String × String) :=
  lines.foldl
    (fun acc line =>
      match parseKV line with
      | some kv => acc ++ [kv]
      | none => acc)
    []

/-- `env_vars.get(k)`: the value of the last binding of `k`, if any
(dictionary assignment overwrites). -/
def envGet (env : List (String × String)) (k : String) : Option String :=
  env.foldl (fun acc kv => if kv.1 = k then some kv.2 else acc) none

/-- Python truthiness of `env_vars.get(...)`: `None` and the empty string
are falsy (line 33 `if not TARGET_HASH or not EXPORT_PASS`). -/
def truthy : Option String → Bool
  | none => false
  | some s => !s.isEmpty

/-! ## Base64 (Python `base64.b64encode`, RFC 4648 with padding) -/

/-- The standard base64 alphabet. -/
def b64Alphabet : List Char :=
  "ABCDEFGHIJKLMNOPQRSTUVWXYZabcdefghijklmnopqrstuvwxyz0123456789+/".toList

/-- The character encoding a sextet. -/
def b64Char (n : Nat) : Char := b64Alphabet.getD n 'A'

/-- The sextet encoded by a character, if it is in the alphabet. -/
def b64CharVal (c : Char) : Option Nat :=
  if c ∈ b64Alphabet then some (b64Alphabet.indexOf c) else none

/-- The padding character. -/
def padChar : Char := Char.ofNat 61

/-- Base64-encode a byte list, three bytes to four characters, padding the
final partial group with `=`. -/
def b64EncodeList : List Nat → List Char
  | [] => []
  | [b0] => [b64Char (b0 / 4), b64Char (b0 % 4 * 16), padChar, padChar]
  | [b0, b1] =>
    [b64Char (b0 / 4), b64Char (b0 % 4 * 16 + b1 / 16), b64Char (b1 % 16 * 4), padChar]
  | b0 :: b1 :: b2 :: rest =>
    b64Char (b0 / 4) :: b64Char (b0 % 4 * 16 + b1 / 16) ::
      b64Char (b1 % 16 * 4 + b2 / 64) :: b64Char (b2 % 64) :: b64EncodeList rest

/-- `base64.b64encode(content).decode('utf-8')` (line 146). -/
def b64Encode (bytes : List Nat) : String := String.mk (b64EncodeList bytes)

/-- Base64-decode four characters at a time, honouring `=` padding. -/
def b64DecodeList : List Char → Option (List Nat)
  | [] => some []
  | c0 :: c1 :: c2 :: c3 :: rest =>
    match b64CharVal c0, b64CharVal c1 with
    | some v0, some v1 =>
      if c2 = padChar then some [v0 * 4 + v1 / 16]
      else
        match b64CharVal c2 with
        | some v2 =>
          if c3 = padChar then some [v0 * 4 + v1 / 16, v1 % 16 * 16 + v2 / 4]
          else
            match b64CharVal c3 with
            | some v3 =>
              (b64DecodeList rest).map
                (fun tl => (v0 * 4 + v1 / 16) :: (v1 % 16 * 16 + v2 / 4) :: (v2 % 4 * 64 + v3) :: tl)
            | none => none
        | none => none
    | _, _ => none
  | _ => none

/-- String-level decode. -/
def b64Decode (s : String) : Option (List Nat) := b64DecodeList s.toList

/-! ## The script body

The script (after configuration loading) is a linear pipeline of calls
to the external `security` utility, file-existence tests, and file
reads/writes.  All external observations a run can make are collected in
a `World`; the script is then a deterministic function from the parsed
configuration and the `World` to a trace of observable events and an
outcome. -/

/-- The captured result of one `subprocess.run` call: standard output,
standard error, and exit status. -/
structure CmdResult where
  stdout : String
  stderr : String
  returncode : Int
  deriving Repr, DecidableEq

/-- Observable side effects of a run. -/
inductive Event where
  /-- A subprocess invocation with its captured result. -/
  | exec (cmd : List String) (res : CmdResult)
  /-- `os.remove(path)`. -/
  | removeFile (path : String)
  /-- Reading the full byte content of a file. -/
  | readFile (path : String) (content : List Nat)
  /-- Writing a text file. -/
  | writeFile (path : String) (content : String)
  deriving Repr, DecidableEq

/-- How a run ends. -/
inductive Outcome where
  /-- `sys.exit(code)`. -/
  | exited (code : Nat)
  /-- `main` returned normally. -/
  | finished
  /-- An uncaught Python exception. -/
  | crashed (msg : String)
  deriving Repr, DecidableEq

/-- All answers the external world gives to this run, in program order:
file-existence tests, results of each external command, and the bytes
read back from the exported file. -/
structure World where
  /-- `os.path.exists(TEMP_KEYCHAIN)` at cleanup (line 50). -/
  tempKeychainExists : Bool
  /-- `os.path.exists(OUTPUT_P12)` at cleanup (line 52). -/
  p12ExistsAtStart : Bool
  deleteTempRes : CmdResult
  createTempRes : CmdResult
  setSettingsTempRes : CmdResult
  unlockTempRes : CmdResult
  listKeychainsRes : CmdResult
  exportRes1 : CmdResult
  exportRes2 : CmdResult
  /-- `os.path.exists(OUTPUT_P12)` after the export (line 103). -/
  p12Exists : Bool
  /-- `os.path.getsize(OUTPUT_P12)` after the export (line 103). -/
  p12Size : Nat
  /-- `os.path.exists(VERIFY_KEYCHAIN)` (line 114). -/
  verifyKeychainExists : Bool
  deleteVerifyStaleRes : CmdResult
  createVerifyRes : CmdResult
  setSettingsVerifyRes : CmdResult
  importRes : CmdResult
  deleteVerifyRes : CmdResult
  /-- The bytes read from `OUTPUT_P12` at line 141. -/
  p12Content : List Nat
  deriving Repr, DecidableEq

/-- `TEMP_KEYCHAIN` (line 30). -/
def TEMP_KEYCHAIN : String := "temp_export.keychain"

/-- `VERIFY_KEYCHAIN` (line 113). -/
def VERIFY_KEYCHAIN : String := "verify.keychain"

/-- `OUTPUT_P12` (line 36); `os.path.abspath` is elided, the path is kept
as written. -/
def OUTPUT_P12 : String := "scripts/certificate.p12"

/-- `OUTPUT_B64` (line 37); `os.path.abspath` is elided. -/
def OUTPUT_B64 : String := "scripts/certificate_base64.txt"

/-- Python argument lists may hold `None` (e.g. `TEMP_PASS` when the key
is absent); resolving succeeds only when every element is a string, as
`' '.join(cmd)` requires. -/
def resolveCmd : List (Option String) → Option (List String)
  | [] => some []
  | none :: _ => none
  | some s :: rest => (resolveCmd rest).map (s :: ·)

/-- `run(cmd)` (lines 41–46): `' '.join(cmd)` raises `TypeError` when an
element is `None`; otherwise the subprocess runs and its result is
captured and returned, whatever the exit status. -/
def runCmd (cmd : List (Option String)) (res : CmdResult) :
    Except String (List String × CmdResult) :=
  match resolveCmd cmd with
  | none => Except.error "TypeError: expected str instance, NoneType found"
  | some c => Except.ok (c, res)

/-- `security delete-keychain <name>` (lines 51, 115, 130). -/
def deleteKeychainCmd (name : String) : List (Option String) :=
  [some "security", some "delete-keychain", some name]

/-- `security create-keychain -p <pass> <name>` (lines 56, 117). -/
def createKeychainCmd (pass : Option String) (name : String) : List (Option String) :=
  [some "security", some "create-keychain", some "-p", pass, some name]

/-- `security set-keychain-settings <name>` (lines 57, 118). -/
def setSettingsCmd (name : String) : List (Option String) :=
  [some "security", some "set-keychain-settings", some name]

/-- `security unlock-keychain -p <pass> <name>` (line 58). -/
def unlockKeychainCmd (pass : Option String) (name : String) : List (Option String) :=
  [some "security", some "unlock-keychain", some "-p", pass, some name]

/-- `security list-keychains -d user -s <temp> login.keychain` (line 63). -/
def listKeychainsCmd : List (Option String) :=
  [some "security", some "list-keychains", some "-d", some "user", some "-s",
   some TEMP_KEYCHAIN, some "login.keychain"]

/-- `CMD` of the export stage (lines 82–89). -/
def exportCmd (pass : Option String) : List (Option String) :=
  [some "security", some "export", some "-k", some "login.keychain", some "-t",
   some "identities", some "-f", some "pkcs12", some "-P", pass, some "-o", some OUTPUT_P12]

/-- `verify_cmd` (lines 121–126). -/
def importCmd (pass : Option String) : List (Option String) :=
  [some "security", some "import", some OUTPUT_P12, some "-k", some VERIFY_KEYCHAIN,
   some "-P", pass, some "-T", some "/usr/bin/codesign"]

/-- Run one external command and continue, or crash on a `TypeError`
from `' '.join`. -/
def step (tr : List Event) (cmd : List (Option String)) (res : CmdResult)
    (k : List Event → List Event × Outcome) : List Event × Outcome :=
  match runCmd cmd res with
  | Except.error m => (tr, Outcome.crashed m)
  | Except.ok (c, r) => k (tr ++ [Event.exec c r])

/-- The body of `main()` (lines 48–155), given `EXPORT_PASS` (`ep`) and
`TEMP_PASS` (`tp`) as the script holds them (possibly `None`) and the
external world's answers. -/
def mainScript (ep tp : Option String) (w : World) : List Event × Outcome :=
  -- Encoder (lines 140–148): read the bundle, write its base64 text.
  let encode : List Event → List Event × Outcome := fun tr =>
    (tr ++ [Event.readFile OUTPUT_P12 w.p12Content,
            Event.writeFile OUTPUT_B64 (b64Encode w.p12Content)], Outcome.finished)
  -- Verifier (lines 112–137): fresh disposable keychain, import, delete,
  -- then fail on a non-zero import status.
  let verify : List Event → List Event × Outcome := fun tr =>
    let afterStale : List Event → List Event × Outcome := fun tr =>
      step tr (createKeychainCmd (some "verify") VERIFY_KEYCHAIN) w.createVerifyRes fun tr =>
      step tr (setSettingsCmd VERIFY_KEYCHAIN) w.setSettingsVerifyRes fun tr =>
      step tr (importCmd ep) w.importRes fun tr =>
      step tr (deleteKeychainCmd VERIFY_KEYCHAIN) w.deleteVerifyRes fun tr =>
      if w.importRes.returncode ≠ 0 then (tr, Outcome.exited 1) else encode tr
    if w.verifyKeychainExists then
      step tr (deleteKeychainCmd VERIFY_KEYCHAIN) w.deleteVerifyStaleRes afterStale
    else afterStale tr
  -- Export success check (lines 103–109).
  let checkP12 : List Event → List Event × Outcome := fun tr =>
    if w.p12Exists && decide (0 < w.p12Size) then verify tr else (tr, Outcome.exited 1)
  -- Exporter (lines 98–101): `run(CMD)` appears twice in the source.
  let exportStage : List Event → List Event × Outcome := fun tr =>
    step tr (exportCmd ep) w.exportRes1 fun tr =>
    step tr (exportCmd ep) w.exportRes2 checkP12
  -- Keychain preparer (lines 55–63).
  let prepare : List Event → List Event × Outcome := fun tr =>
    step tr (createKeychainCmd tp TEMP_KEYCHAIN) w.createTempRes fun tr =>
    step tr (setSettingsCmd TEMP_KEYCHAIN) w.setSettingsTempRes fun tr =>
    step tr (unlockKeychainCmd tp TEMP_KEYCHAIN) w.unlockTempRes fun tr =>
    step tr listKeychainsCmd w.listKeychainsRes exportStage
  -- Cleanup (lines 49–53).
  let afterDelete : List Event → List Event × Outcome := fun tr =>
    if w.p12ExistsAtStart then prepare (tr ++ [Event.removeFile OUTPUT_P12]) else prepare tr
  if w.tempKeychainExists then
    step [] (deleteKeychainCmd TEMP_KEYCHAIN) w.deleteTempRes afterDelete
  else afterDelete []

/-- The module-level required-key check (line 33):
`if not TARGET_HASH or not EXPORT_PASS`. -/
def requiredOk (env : List (String × String)) : Bool :=
  truthy (envGet env "APPLE_CERT_HASH") && truthy (envGet env "APPLE_CERT_EXPORT_PASS")

/-- A whole run of the script on a configuration file (given as its
lines) and a world: load the configuration, check the required keys
(lines 28–35), then run `main()`. -/
def runScript (lines : List String) (w : World) : List Event × Outcome :=
  let env := loadEnv lines
  if requiredOk env then
    mainScript (envGet env "APPLE_CERT_EXPORT_PASS")
      (envGet env "APPLE_TEMP_KEYCHAIN_PASS") w
  else ([], Outcome.exited 1)

/-! ## Trace observations -/

/-- The contents written to `path`, in order. -/
def fileWrites (tr : List Event) (path : String) : List String :=
  tr.filterMap fun e =>
    match e with
    | Event.writeFile q s => if q = path then some s else none
    | _ => none

/-- The contents read from `path`, in order. -/
def fileReads (tr : List Event) (path : String) : List (List Nat) :=
  tr.filterMap fun e =>
    match e with
    | Event.readFile q c => if q = path then some c else none
    | _ => none

/-- Whether an event is a subprocess invocation. -/
def isExec : Event → Bool
  | Event.exec _ _ => true
  | _ => false

/-- How many times the exact command `c` was invoked in the trace. -/
def execCount (tr : List Event) (c : List String) : Nat :=
  tr.countP fun e =>
    match e with
    | Event.exec c' _ => decide (c' = c)
    | _ => false

/-- Whether an event is one of the two `security export` invocations. -/
def isExportExec : Event → Bool
  | Event.exec (a :: b :: _) _ => a = "security" && b = "export"
  | _ => false

/-- The resolved `security delete-keychain <name>` command line. -/
def deleteKeychainRun (name : String) : List String :=
  ["security", "delete-keychain", name]

/-- The resolved `security create-keychain -p <pass> <name>` command line. -/
def createKeychainRun (pass name : String) : List String :=
  ["security", "create-keychain", "-p", pass, name]

/-- The resolved `security set-keychain-settings <name>` command line. -/
def setSettingsRun (name : String) : List String :=
  ["security", "set-keychain-settings", name]

/-- The resolved `security unlock-keychain -p <pass> <name>` command line. -/
def unlockKeychainRun (pass name : String) : List String :=
  ["security", "unlock-keychain", "-p", pass, name]

/-- The resolved `security list-keychains …` command line. -/
def listKeychainsRun : List String :=
  ["security", "list-keychains", "-d", "user", "-s", TEMP_KEYCHAIN, "login.keychain"]

/-- The resolved export command line. -/
def exportRun (pass : String) : List String :=
  ["security", "export", "-k", "login.keychain", "-t", "identities", "-f", "pkcs12",
   "-P", pass, "-o", OUTPUT_P12]

/-- The resolved import (verification) command line. -/
def importRun (pass : String) : List String :=
  ["security", "import", OUTPUT_P12, "-k", VERIFY_KEYCHAIN, "-P", pass, "-T",
   "/usr/bin/codesign"]

/-- Whether an event is the deletion of the verification keychain. -/
def isDeleteVerifyExec : Event → Bool
  | Event.exec c _ => decide (c = deleteKeychainRun VERIFY_KEYCHAIN)
  | _ => false

/-- Modelled from the spec: §6 lists the external utility's keychain
subcommands ("delete keychain, create keychain, …").  `create-keychain`
brings the named keychain into existence and `delete-keychain` removes
it; other events leave it unchanged.  Replaying a trace over this
transition yields whether the named keychain exists afterward. -/
def kcStep (name : String) (cur : Bool) (e : Event) : Bool :=
  match e with
  | Event.exec c _ =>
    match c with
    | [a, b, n] =>
      if a = "security" && b = "delete-keychain" && n = name then false else cur
    | [a, b, p, _, n] =>
      if a = "security" && b = "create-keychain" && p = "-p" && n = name then true else cur
    | _ => cur
  | _ => cur

/-- Whether the named keychain exists after replaying the trace, given
its initial existence. -/
def keychainExistsAfter (name : String) (init : Bool) (tr : List Event) : Bool :=
  tr.foldl (kcStep name) init

/-! ## Concrete inputs used by witnesses and counterexamples -/

/-- A successful command result. -/
def okRes : CmdResult := ⟨"", "", 0⟩

/-- A failing command result. -/
def failRes : CmdResult := ⟨"", "The specified keychain could not be found.", 1⟩

/-- A world in which every stage succeeds and no stale state exists. -/
def cleanWorld : World where
  tempKeychainExists := false
  p12ExistsAtStart := false
  deleteTempRes := okRes
  createTempRes := okRes
  setSettingsTempRes := okRes
  unlockTempRes := okRes
  listKeychainsRes := okRes
  exportRes1 := okRes
  exportRes2 := okRes
  p12Exists := true
  p12Size := 3
  verifyKeychainExists := false
  deleteVerifyStaleRes := okRes
  createVerifyRes := okRes
  setSettingsVerifyRes := okRes
  importRes := okRes
  deleteVerifyRes := okRes
  p12Content := [1, 2, 3]

/-- A world in which every stale artifact of a previous run is present. -/
def staleWorld : World :=
  { cleanWorld with tempKeychainExists := true, p12ExistsAtStart := true,
                    verifyKeychainExists := true }

/-- A world in which the export step leaves no output file behind. -/
def noP12World : World := { cleanWorld with p12Exists := false }

/-- A world in which the verification import fails. -/
def badImportWorld : World := { cleanWorld with importRes := failRes }

/-- A configuration file with both required keys and the optional
temporary-keychain password. -/
def cfgFull : List String :=
  ["APPLE_CERT_HASH=abc", "APPLE_CERT_EXPORT_PASS=pw", "APPLE_TEMP_KEYCHAIN_PASS=tp"]

/-- A configuration file with both required keys but without the optional
temporary-keychain-password key. -/
def cfgNoTemp : List String :=
  ["APPLE_CERT_HASH=abc", "APPLE_CERT_EXPORT_PASS=pw"]

/-- A configuration file missing the required certificate-hash key. -/
def cfgMissingHash : List String := ["APPLE_CERT_EXPORT_PASS=pw"]

/-! ## Base64 lemmas -/

theorem b64CharVal_b64Char {n : Nat} (h : n < 64) : b64CharVal (b64Char n) = some n := by
  have key : ∀ m : Fin 64, b64CharVal (b64Char m.val) = some m.val := by decide
  exact key ⟨n, h⟩

theorem b64Char_ne_pad (n : Nat) : b64Char n ≠ padChar := by
  rcases Nat.lt_or_ge n 64 with h | h
  · have key : ∀ m : Fin 64, b64Char m.val ≠ padChar := by decide
    exact key ⟨n, h⟩
  · have hlen : b64Alphabet.length ≤ n := by
      have : b64Alphabet.length = 64 := by decide
      omega
    unfold b64Char
    rw [List.getD_eq_default _ _ hlen]
    decide

/-- Decoding is a left inverse of encoding on byte lists. -/
theorem b64_roundtrip : ∀ (bytes : List Nat), (∀ b ∈ bytes, b < 256) →
    b64DecodeList (b64EncodeList bytes) = some bytes
  | [], _ => rfl
  | [b0], h => by
    have h0 : b0 < 256 := h b0 (by simp)
    have e0 : b0 / 4 < 64 := by omega
    have e1 : b0 % 4 * 16 < 64 := by omega
    simp [b64EncodeList, b64DecodeList, b64CharVal_b64Char e0, b64CharVal_b64Char e1]
    omega
  | [b0, b1], h => by
    have h0 : b0 < 256 := h b0 (by simp)
    have h1 : b1 < 256 := h b1 (by simp)
    have e0 : b0 / 4 < 64 := by omega
    have e1 : b0 % 4 * 16 + b1 / 16 < 64 := by omega
    have e2 : b1 % 16 * 4 < 64 := by omega
    simp [b64EncodeList, b64DecodeList, b64CharVal_b64Char e0, b64CharVal_b64Char e1,
      b64CharVal_b64Char e2, b64Char_ne_pad]
    omega
  | b0 :: b1 :: b2 :: rest, h => by
    have h0 : b0 < 256 := h b0 (by simp)
    have h1 : b1 < 256 := h b1 (by simp)
    have h2 : b2 < 256 := h b2 (by simp)
    have e0 : b0 / 4 < 64 := by omega
    have e1 : b0 % 4 * 16 + b1 / 16 < 64 := by omega
    have e2 : b1 % 16 * 4 + b2 / 64 < 64 := by omega
    have e3 : b2 % 64 < 64 := by omega
    have ih := b64_roundtrip rest (fun b hb => h b (by simp [hb]))
    simp [b64EncodeList, b64DecodeList, b64CharVal_b64Char e0, b64CharVal_b64Char e1,
      b64CharVal_b64Char e2, b64CharVal_b64Char e3, b64Char_ne_pad, ih]
    omega

/-! ## Script-body lemmas -/

theorem truthy_some_ne {s : String} (h : s ≠ "") : truthy (some s) = true := by
  cases he : s.isEmpty with
  | false => simp [truthy, he]
  | true => exact absurd ((String.isEmpty_iff s).mp he) h

/-- Closed form of the script body when both passwords are strings: the
trace is the cleanup, the keychain preparation, the two export
invocations, and — when the exported file is present and non-empty — the
verification and, on a zero import status, the encoding. -/
theorem mainScript_eq (ep tp : String) (w : World) :
    mainScript (some ep) (some tp) w =
      ((if w.tempKeychainExists then
          [Event.exec (deleteKeychainRun TEMP_KEYCHAIN) w.deleteTempRes] else []) ++
       (if w.p12ExistsAtStart then [Event.removeFile OUTPUT_P12] else []) ++
       [Event.exec (createKeychainRun tp TEMP_KEYCHAIN) w.createTempRes,
        Event.exec (setSettingsRun TEMP_KEYCHAIN) w.setSettingsTempRes,
        Event.exec (unlockKeychainRun tp TEMP_KEYCHAIN) w.unlockTempRes,
        Event.exec listKeychainsRun w.listKeychainsRes,
        Event.exec (exportRun ep) w.exportRes1,
        Event.exec (exportRun ep) w.exportRes2] ++
       (if w.p12Exists && decide (0 < w.p12Size) then
          (if w.verifyKeychainExists then
            [Event.exec (deleteKeychainRun VERIFY_KEYCHAIN) w.deleteVerifyStaleRes] else []) ++
          [Event.exec (createKeychainRun "verify" VERIFY_KEYCHAIN) w.createVerifyRes,
           Event.exec (setSettingsRun VERIFY_KEYCHAIN) w.setSettingsVerifyRes,
           Event.exec (importRun ep) w.importRes,
           Event.exec (deleteKeychainRun VERIFY_KEYCHAIN) w.deleteVerifyRes] ++
          (if w.importRes.returncode ≠ 0 then [] else
            [Event.readFile OUTPUT_P12 w.p12Content,
             Event.writeFile OUTPUT_B64 (b64Encode w.p12Content)])
        else []),
       if w.p12Exists && decide (0 < w.p12Size) then
         (if w.importRes.returncode ≠ 0 then Outcome.exited 1 else Outcome.finished)
       else Outcome.exited 1) := by
  cases h1 : w.tempKeychainExists <;> cases h2 : w.p12ExistsAtStart <;>
    cases h3 : w.verifyKeychainExists <;>
    cases h4 : w.p12Exists && decide (0 < w.p12Size) <;>
    by_cases h5 : w.importRes.returncode = 0 <;>
    simp [mainScript, step, runCmd, resolveCmd, h1, h2, h3, h4, h5,
      deleteKeychainCmd, createKeychainCmd, setSettingsCmd, unlockKeychainCmd,
      listKeychainsCmd, exportCmd, importCmd,
      deleteKeychainRun, createKeychainRun, setSettingsRun, unlockKeychainRun,
      listKeychainsRun, exportRun, importRun]

/-- Closed form of the script body when `TEMP_PASS` is `None`: the run
crashes with a `TypeError` while formatting the `create-keychain`
command, after the cleanup but before any create/unlock invocation. -/
theorem mainScript_none (ep : Option String) (w : World) :
    mainScript ep none w =
      ((if w.tempKeychainExists then
          [Event.exec (deleteKeychainRun TEMP_KEYCHAIN) w.deleteTempRes] else []) ++
       (if w.p12ExistsAtStart then [Event.removeFile OUTPUT_P12] else []),
       Outcome.crashed "TypeError: expected str instance, NoneType found") := by
  cases h1 : w.tempKeychainExists <;> cases h2 : w.p12ExistsAtStart <;>
    simp [mainScript, step, runCmd, resolveCmd, h1, h2,
      deleteKeychainCmd, createKeychainCmd, deleteKeychainRun]

/-- When both required keys hold non-empty values, the run is the script
body applied to the configured passwords. -/
theorem runScript_eq (lines : List String) (w : World) (ep tp : String)
    (hH : truthy (envGet (loadEnv lines) "APPLE_CERT_HASH") = true)
    (hE : envGet (loadEnv lines) "APPLE_CERT_EXPORT_PASS" = some ep) (hep : ep ≠ "")
    (hT : envGet (loadEnv lines) "APPLE_TEMP_KEYCHAIN_PASS" = some tp) :
    runScript lines w = mainScript (some ep) (some tp) w := by
  have hreq : requiredOk (loadEnv lines) = true := by
    simp [requiredOk, hH, hE, truthy_some_ne hep]
  simp [runScript, hreq, hE, hT]

/-- When both required keys hold non-empty values but the optional
temporary-keychain-password key is absent, the run is the script body
applied to `None` as `TEMP_PASS`. -/
theorem runScript_eq_noTemp (lines : List String) (w : World) (ep : String)
    (hH : truthy (envGet (loadEnv lines) "APPLE_CERT_HASH") = true)
    (hE : envGet (loadEnv lines) "APPLE_CERT_EXPORT_PASS" = some ep) (hep : ep ≠ "")
    (hT : envGet (loadEnv lines) "APPLE_TEMP_KEYCHAIN_PASS" = none) :
    runScript lines w = mainScript (some ep) none w := by
  have hreq : requiredOk (loadEnv lines) = true := by
    simp [requiredOk, hH, hE, truthy_some_ne hep]
  simp [runScript, hreq, hE, hT]

/-! ## Claims -/

/-- C2: For every configuration file in which at least one of the two
required keys (`APPLE_CERT_HASH`, `APPLE_CERT_EXPORT_PASS`) is absent, the
process exits with status 1 and no external command is invoked before
that exit. -/
theorem c2_missing_required_key_exits_without_subprocess (lines : List String) (w : World)
    (h : envGet (loadEnv lines) "APPLE_CERT_HASH" = none ∨
         envGet (loadEnv lines) "APPLE_CERT_EXPORT_PASS" = none) :
    (runScript lines w).2 = Outcome.exited 1 ∧
    ∀ e ∈ (runScript lines w).1, isExec e = false := by
  have hreq : requiredOk (loadEnv lines) = false := by
    rcases h with h | h <;> simp [requiredOk, h, truthy]
  refine ⟨by simp [runScript, hreq], ?_⟩
  intro e he
  simp [runScript, hreq] at he

/-- Witness for C2: a file defining only the export password makes the
run exit with status 1 and an empty trace. -/
theorem c2_witness :
    (runScript cfgMissingHash cleanWorld).2 = Outcome.exited 1 ∧
    ∀ e ∈ (runScript cfgMissingHash cleanWorld).1, isExec e = false :=
  c2_missing_required_key_exits_without_subprocess cfgMissingHash cleanWorld
    (Or.inl (by decide))

/-- C9: For every external command invocation whose argument list
resolves to strings, the command runner returns the captured result — for
any exit status, including non-zero — and never raises; the caller
inspects `returncode`. -/
theorem c9_runner_captures_and_never_throws (cmd : List (Option String)) (res : CmdResult)
    (h : ∀ a ∈ cmd, a ≠ none) :
    ∃ c, resolveCmd cmd = some c ∧ runCmd cmd res = Except.ok (c, res) := by
  induction cmd with
  | nil => exact ⟨[], rfl, rfl⟩
  | cons a rest ih =>
    cases a with
    | none => exact absurd rfl (h none (by simp))
    | some s =>
      obtain ⟨c, hc, -⟩ := ih fun x hx => h x (by simp [hx])
      exact ⟨s :: c, by simp [resolveCmd, hc], by simp [runCmd, resolveCmd, hc]⟩

/-- Witness for C9: a command returning exit status 1 is captured and
returned, not raised. -/
theorem c9_witness :
    ∃ c, resolveCmd [some "security", some "export"] = some c ∧
      runCmd [some "security", some "export"] failRes = Except.ok (c, failRes) :=
  c9_runner_captures_and_never_throws [some "security", some "export"] failRes (by decide)

/-- C5 (against the claim "invoked exactly once"): in every run that
reaches the export stage, the external export utility is invoked exactly
twice — `run(CMD)` appears at both line 98 and line 101. -/
theorem c5_export_invoked_exactly_twice (lines : List String) (w : World) (ep tp : String)
    (hH : truthy (envGet (loadEnv lines) "APPLE_CERT_HASH") = true)
    (hE : envGet (loadEnv lines) "APPLE_CERT_EXPORT_PASS" = some ep) (hep : ep ≠ "")
    (hT : envGet (loadEnv lines) "APPLE_TEMP_KEYCHAIN_PASS" = some tp) :
    execCount (runScript lines w).1 (exportRun ep) = 2 := by
  rw [runScript_eq lines w ep tp hH hE hep hT, mainScript_eq]
  cases h1 : w.tempKeychainExists <;> cases h2 : w.p12ExistsAtStart <;>
    cases h3 : w.verifyKeychainExists <;>
    cases h4 : w.p12Exists && decide (0 < w.p12Size) <;>
    by_cases h5 : w.importRes.returncode = 0 <;>
    simp [h1, h2, h3, h4, h5, execCount, List.countP_append, List.countP_cons,
      exportRun, deleteKeychainRun, createKeychainRun, setSettingsRun,
      unlockKeychainRun, listKeychainsRun, importRun,
      TEMP_KEYCHAIN, VERIFY_KEYCHAIN, OUTPUT_P12]

/-- Witness for C5: a fully configured run with a clean world invokes the
export command exactly twice. -/
theorem c5_witness : execCount (runScript cfgFull cleanWorld).1 (exportRun "pw") = 2 :=
  c5_export_invoked_exactly_twice cfgFull cleanWorld "pw" "tp"
    (by decide) (by decide) (by decide) (by decide)

/-- C1: In every run in which the configuration supplies both required
keys, the export check passes (file present and non-empty), and the
verification import succeeds, the text written to the base64 output file
equals the base64 encoding of the exact bytes read from the binary output
file, and decoding that text yields exactly those bytes. -/
theorem c1_b64_text_encodes_read_bytes (lines : List String) (w : World) (ep tp : String)
    (hH : truthy (envGet (loadEnv lines) "APPLE_CERT_HASH") = true)
    (hE : envGet (loadEnv lines) "APPLE_CERT_EXPORT_PASS" = some ep) (hep : ep ≠ "")
    (hT : envGet (loadEnv lines) "APPLE_TEMP_KEYCHAIN_PASS" = some tp)
    (hbytes : ∀ b ∈ w.p12Content, b < 256)
    (hP12 : w.p12Exists = true) (hSz : 0 < w.p12Size)
    (hImp : w.importRes.returncode = 0) :
    (runScript lines w).2 = Outcome.finished ∧
    fileReads (runScript lines w).1 OUTPUT_P12 = [w.p12Content] ∧
    fileWrites (runScript lines w).1 OUTPUT_B64 = [b64Encode w.p12Content] ∧
    b64Decode (b64Encode w.p12Content) = some w.p12Content := by
  rw [runScript_eq lines w ep tp hH hE hep hT, mainScript_eq]
  refine ⟨?_, ?_, ?_, b64_roundtrip w.p12Content hbytes⟩ <;>
    cases h1 : w.tempKeychainExists <;> cases h2 : w.p12ExistsAtStart <;>
    cases h3 : w.verifyKeychainExists <;>
    simp [h1, h2, h3, hP12, hSz, hImp, fileReads, fileWrites,
      List.filterMap_append, OUTPUT_P12, OUTPUT_B64]

/-- Witness for C1: a clean successful run on bytes `[1, 2, 3]` writes
their encoding `AQID` and decoding returns the same bytes. -/
theorem c1_witness :
    (runScript cfgFull cleanWorld).2 = Outcome.finished ∧
    fileReads (runScript cfgFull cleanWorld).1 OUTPUT_P12 = [cleanWorld.p12Content] ∧
    fileWrites (runScript cfgFull cleanWorld).1 OUTPUT_B64 = [b64Encode cleanWorld.p12Content] ∧
    b64Decode (b64Encode cleanWorld.p12Content) = some cleanWorld.p12Content :=
  c1_b64_text_encodes_read_bytes cfgFull cleanWorld "pw" "tp"
    (by decide) (by decide) (by decide) (by decide) (by decide) (by decide) (by decide) (by decide)

/-- C4: In every run whose post-export check finds the binary output
absent or empty, the process exits with a non-zero status, no
verification keychain is created, no import is attempted, and no file is
written. -/
theorem c4_empty_export_stops_run (lines : List String) (w : World) (ep tp : String)
    (hH : truthy (envGet (loadEnv lines) "APPLE_CERT_HASH") = true)
    (hE : envGet (loadEnv lines) "APPLE_CERT_EXPORT_PASS" = some ep) (hep : ep ≠ "")
    (hT : envGet (loadEnv lines) "APPLE_TEMP_KEYCHAIN_PASS" = some tp)
    (hfail : w.p12Exists = false ∨ w.p12Size = 0) :
    (runScript lines w).2 = Outcome.exited 1 ∧
    (∀ p res, Event.exec (createKeychainRun p VERIFY_KEYCHAIN) res ∉ (runScript lines w).1) ∧
    (∀ p res, Event.exec (importRun p) res ∉ (runScript lines w).1) ∧
    (∀ p s, Event.writeFile p s ∉ (runScript lines w).1) := by
  have h4 : (w.p12Exists && decide (0 < w.p12Size)) = false := by
    rcases hfail with h | h <;> simp [h]
  rw [runScript_eq lines w ep tp hH hE hep hT, mainScript_eq]
  refine ⟨by simp [h4], ?_, ?_, ?_⟩ <;>
    cases h1 : w.tempKeychainExists <;> cases h2 : w.p12ExistsAtStart <;>
    simp [h1, h2, h4, createKeychainRun, importRun, deleteKeychainRun, setSettingsRun,
      unlockKeychainRun, listKeychainsRun, exportRun,
      TEMP_KEYCHAIN, VERIFY_KEYCHAIN, OUTPUT_P12]

/-- Witness for C4: a run in which the exported file is missing exits 1
and never touches the verification keychain nor writes a file. -/
theorem c4_witness :
    (runScript cfgFull noP12World).2 = Outcome.exited 1 ∧
    (∀ p res, Event.exec (createKeychainRun p VERIFY_KEYCHAIN) res ∉ (runScript cfgFull noP12World).1) ∧
    (∀ p res, Event.exec (importRun p) res ∉ (runScript cfgFull noP12World).1) ∧
    (∀ p s, Event.writeFile p s ∉ (runScript cfgFull noP12World).1) :=
  c4_empty_export_stops_run cfgFull noP12World "pw" "tp"
    (by decide) (by decide) (by decide) (by decide) (Or.inl (by decide))

/-- C3: In every run that reaches the verification stage, the
disposable verification keychain is deleted immediately after the import
attempt regardless of its outcome (under the spec's model of the external
utility, the keychain no longer exists afterward for any initial state),
and a non-zero import status makes the process exit 1 after that
deletion. -/
theorem c3_verify_keychain_deleted_after_import (lines : List String) (w : World)
    (ep tp : String)
    (hH : truthy (envGet (loadEnv lines) "APPLE_CERT_HASH") = true)
    (hE : envGet (loadEnv lines) "APPLE_CERT_EXPORT_PASS" = some ep) (hep : ep ≠ "")
    (hT : envGet (loadEnv lines) "APPLE_TEMP_KEYCHAIN_PASS" = some tp)
    (hP12 : w.p12Exists = true) (hSz : 0 < w.p12Size) :
    (∀ init, keychainExistsAfter VERIFY_KEYCHAIN init (runScript lines w).1 = false) ∧
    (∃ pre post, (runScript lines w).1 =
        pre ++ Event.exec (importRun ep) w.importRes ::
          Event.exec (deleteKeychainRun VERIFY_KEYCHAIN) w.deleteVerifyRes :: post) ∧
    (w.importRes.returncode ≠ 0 → (runScript lines w).2 = Outcome.exited 1) := by
  have h4 : (w.p12Exists && decide (0 < w.p12Size)) = true := by simp [hP12, hSz]
  rw [runScript_eq lines w ep tp hH hE hep hT, mainScript_eq]
  refine ⟨?_, ?_, ?_⟩
  · intro init
    cases h1 : w.tempKeychainExists <;> cases h2 : w.p12ExistsAtStart <;>
      cases h3 : w.verifyKeychainExists <;> by_cases h5 : w.importRes.returncode = 0 <;>
      simp [h1, h2, h3, h4, h5, keychainExistsAfter, kcStep,
        deleteKeychainRun, createKeychainRun, setSettingsRun, unlockKeychainRun,
        listKeychainsRun, exportRun, importRun, TEMP_KEYCHAIN, VERIFY_KEYCHAIN, OUTPUT_P12]
  · refine ⟨(if w.tempKeychainExists then
        [Event.exec (deleteKeychainRun TEMP_KEYCHAIN) w.deleteTempRes] else []) ++
      (if w.p12ExistsAtStart then [Event.removeFile OUTPUT_P12] else []) ++
      [Event.exec (createKeychainRun tp TEMP_KEYCHAIN) w.createTempRes,
       Event.exec (setSettingsRun TEMP_KEYCHAIN) w.setSettingsTempRes,
       Event.exec (unlockKeychainRun tp TEMP_KEYCHAIN) w.unlockTempRes,
       Event.exec listKeychainsRun w.listKeychainsRes,
       Event.exec (exportRun ep) w.exportRes1,
       Event.exec (exportRun ep) w.exportRes2] ++
      (if w.verifyKeychainExists then
        [Event.exec (deleteKeychainRun VERIFY_KEYCHAIN) w.deleteVerifyStaleRes] else []) ++
      [Event.exec (createKeychainRun "verify" VERIFY_KEYCHAIN) w.createVerifyRes,
       Event.exec (setSettingsRun VERIFY_KEYCHAIN) w.setSettingsVerifyRes],
      (if w.importRes.returncode ≠ 0 then [] else
        [Event.readFile OUTPUT_P12 w.p12Content,
         Event.writeFile OUTPUT_B64 (b64Encode w.p12Content)]), ?_⟩
    simp [h4]
  · intro hrc
    simp [h4, hrc]

/-- Witness for C3: a run whose verification import fails (status 1)
still deletes the verification keychain and exits 1. -/
theorem c3_witness :
    (∀ init, keychainExistsAfter VERIFY_KEYCHAIN init (runScript cfgFull badImportWorld).1 = false) ∧
    (∃ pre post, (runScript cfgFull badImportWorld).1 =
        pre ++ Event.exec (importRun "pw") badImportWorld.importRes ::
          Event.exec (deleteKeychainRun VERIFY_KEYCHAIN) badImportWorld.deleteVerifyRes :: post) ∧
    (badImportWorld.importRes.returncode ≠ 0 →
      (runScript cfgFull badImportWorld).2 = Outcome.exited 1) :=
  c3_verify_keychain_deleted_after_import cfgFull badImportWorld "pw" "tp"
    (by decide) (by decide) (by decide) (by decide) (by decide) (by decide)

/-- Counterexample for C8 as stated: with both required keys present but
the optional temporary-keychain-password key absent, the run crashes
(uncaught `TypeError` from `' '.join(cmd)`) before any external command
is invoked — the missing value is never passed to the external tool. -/
theorem c8_counterexample :
    (runScript cfgNoTemp cleanWorld) =
      ([], Outcome.crashed "TypeError: expected str instance, NoneType found") ∧
    (∀ e ∈ (runScript cfgNoTemp cleanWorld).1, isExec e = false) := by decide

/-- C8 (amended): When the optional temporary-keychain-password key is
absent but both required keys are present, execution proceeds past the
configuration check (no status-1 configuration exit), but the run then
crashes with a `TypeError` while formatting the `create-keychain`
command: no create or unlock command is ever invoked. -/
theorem c8_missing_temp_pass_crashes_before_create (lines : List String) (w : World)
    (ep : String)
    (hH : truthy (envGet (loadEnv lines) "APPLE_CERT_HASH") = true)
    (hE : envGet (loadEnv lines) "APPLE_CERT_EXPORT_PASS" = some ep) (hep : ep ≠ "")
    (hT : envGet (loadEnv lines) "APPLE_TEMP_KEYCHAIN_PASS" = none) :
    (runScript lines w).2 =
      Outcome.crashed "TypeError: expected str instance, NoneType found" ∧
    (∀ p n res, Event.exec (createKeychainRun p n) res ∉ (runScript lines w).1) ∧
    (∀ p n res, Event.exec (unlockKeychainRun p n) res ∉ (runScript lines w).1) := by
  rw [runScript_eq_noTemp lines w ep hH hE hep hT, mainScript_none]
  refine ⟨by simp, ?_, ?_⟩ <;>
    cases h1 : w.tempKeychainExists <;> cases h2 : w.p12ExistsAtStart <;>
    simp [h1, h2, createKeychainRun, unlockKeychainRun, deleteKeychainRun]

/-- Witness for the amended C8: a stale temporary keychain is still
cleaned up, then the run crashes before the create command. -/
theorem c8_witness :
    (runScript cfgNoTemp staleWorld).2 =
      Outcome.crashed "TypeError: expected str instance, NoneType found" ∧
    (∀ p n res, Event.exec (createKeychainRun p n) res ∉ (runScript cfgNoTemp staleWorld).1) ∧
    (∀ p n res, Event.exec (unlockKeychainRun p n) res ∉ (runScript cfgNoTemp staleWorld).1) :=
  c8_missing_temp_pass_crashes_before_create cfgNoTemp staleWorld "pw"
    (by decide) (by decide) (by decide) (by decide)

/-- Counterexample for C6 as stated: with every stale artifact present,
nothing before the export invocations deletes the stale verification
keychain, and the stale base64 text file is never removed at all. -/
theorem c6_counterexample :
    staleWorld.verifyKeychainExists = true ∧
    ((runScript cfgFull staleWorld).1.takeWhile fun e => !isExportExec e).all
      (fun e => !isDeleteVerifyExec e) = true ∧
    Event.removeFile OUTPUT_B64 ∉ (runScript cfgFull staleWorld).1 := by decide

/-- C6 (amended): At the start of every run, before the export stage,
the stale temporary keychain (when present) is deleted and the stale
binary output file (when present) is removed; the stale verification
keychain, however, is deleted only at the start of the verification
stage, after the export, and the stale base64 text file is never removed
(it is only overwritten by a successful run's final write). -/
theorem c6_stale_cleanup_timing (lines : List String) (w : World) (ep tp : String)
    (hH : truthy (envGet (loadEnv lines) "APPLE_CERT_HASH") = true)
    (hE : envGet (loadEnv lines) "APPLE_CERT_EXPORT_PASS" = some ep) (hep : ep ≠ "")
    (hT : envGet (loadEnv lines) "APPLE_TEMP_KEYCHAIN_PASS" = some tp) :
    (w.tempKeychainExists = true →
      Event.exec (deleteKeychainRun TEMP_KEYCHAIN) w.deleteTempRes ∈
        ((runScript lines w).1.takeWhile fun e => !isExportExec e)) ∧
    (w.p12ExistsAtStart = true →
      Event.removeFile OUTPUT_P12 ∈
        ((runScript lines w).1.takeWhile fun e => !isExportExec e)) ∧
    (∀ e ∈ ((runScript lines w).1.takeWhile fun e => !isExportExec e),
      isDeleteVerifyExec e = false) ∧
    Event.removeFile OUTPUT_B64 ∉ (runScript lines w).1 ∧
    ((w.p12Exists && decide (0 < w.p12Size)) = true → w.verifyKeychainExists = true →
      Event.exec (deleteKeychainRun VERIFY_KEYCHAIN) w.deleteVerifyStaleRes ∈
        (runScript lines w).1) := by
  rw [runScript_eq lines w ep tp hH hE hep hT, mainScript_eq]
  refine ⟨?_, ?_, ?_, ?_, ?_⟩
  · intro htk
    cases h2 : w.p12ExistsAtStart <;>
      simp [htk, h2, isExportExec, deleteKeychainRun, createKeychainRun, setSettingsRun,
        unlockKeychainRun, listKeychainsRun, exportRun]
  · intro hps
    cases h1 : w.tempKeychainExists <;>
      simp [h1, hps, isExportExec, deleteKeychainRun, createKeychainRun, setSettingsRun,
        unlockKeychainRun, listKeychainsRun, exportRun]
  · cases h1 : w.tempKeychainExists <;> cases h2 : w.p12ExistsAtStart <;>
      simp [h1, h2, isExportExec, isDeleteVerifyExec,
        deleteKeychainRun, createKeychainRun, setSettingsRun, unlockKeychainRun,
        listKeychainsRun, exportRun, TEMP_KEYCHAIN, VERIFY_KEYCHAIN]
  · cases h1 : w.tempKeychainExists <;> cases h2 : w.p12ExistsAtStart <;>
      cases h3 : w.verifyKeychainExists <;>
      cases h4 : w.p12Exists && decide (0 < w.p12Size) <;>
      by_cases h5 : w.importRes.returncode = 0 <;>
      simp [h1, h2, h3, h4, h5, OUTPUT_P12, OUTPUT_B64]
  · intro hchk hvk
    simp [hchk, hvk]

/-- Witness for the amended C6: in a fully stale world the temporary
keychain and binary file are removed before the export, the verification
keychain only afterwards, and the base64 file never. -/
theorem c6_witness :
    (staleWorld.tempKeychainExists = true →
      Event.exec (deleteKeychainRun TEMP_KEYCHAIN) staleWorld.deleteTempRes ∈
        ((runScript cfgFull staleWorld).1.takeWhile fun e => !isExportExec e)) ∧
    (staleWorld.p12ExistsAtStart = true →
      Event.removeFile OUTPUT_P12 ∈
        ((runScript cfgFull staleWorld).1.takeWhile fun e => !isExportExec e)) ∧
    (∀ e ∈ ((runScript cfgFull staleWorld).1.takeWhile fun e => !isExportExec e),
      isDeleteVerifyExec e = false) ∧
    Event.removeFile OUTPUT_B64 ∉ (runScript cfgFull staleWorld).1 ∧
    ((staleWorld.p12Exists && decide (0 < staleWorld.p12Size)) = true →
      staleWorld.verifyKeychainExists = true →
      Event.exec (deleteKeychainRun VERIFY_KEYCHAIN) staleWorld.deleteVerifyStaleRes ∈
        (runScript cfgFull staleWorld).1) :=
  c6_stale_cleanup_timing cfgFull staleWorld "pw" "tp"
    (by decide) (by decide) (by decide) (by decide)

/-! ## Stripping and parsing lemmas -/

theorem dropWhile_of_head_false {p : Char → Bool} {l : List Char}
    (h : ∀ c, l.head? = some c → p c = false) : l.dropWhile p = l := by
  cases l with
  | nil => rfl
  | cons a t => exact List.dropWhile_cons_of_neg (by simp [h a rfl])

theorem head_dropWhile_false (p : Char → Bool) (l : List Char) :
    ∀ c, (l.dropWhile p).head? = some c → p c = false := by
  induction l with
  | nil => intro c hc; simp at hc
  | cons a t ih =>
    intro c hc
    by_cases hpa : p a = true
    · rw [List.dropWhile_cons_of_pos hpa] at hc
      exact ih c hc
    · rw [List.dropWhile_cons_of_neg hpa] at hc
      rw [List.head?_cons] at hc
      cases hc
      simpa using hpa

/-- Python `strip` over an arbitrary character class: the input splits
into stripped prefix, kept middle, stripped suffix; every removed
character is in the class and the kept middle has no class character at
either end. -/
theorem stripBoth_spec (p : Char → Bool) (v : List Char) :
    ∃ pre suf, v = pre ++ stripBoth p v ++ suf ∧
      (∀ c ∈ pre, p c = true) ∧ (∀ c ∈ suf, p c = true) ∧
      (∀ c, (stripBoth p v).head? = some c → p c = false) ∧
      (∀ c, (stripBoth p v).getLast? = some c → p c = false) := by
  refine ⟨v.takeWhile p, ((v.dropWhile p).reverse.takeWhile p).reverse, ?_, ?_, ?_, ?_, ?_⟩
  · have hm : v.dropWhile p =
        ((v.dropWhile p).reverse.dropWhile p).reverse ++
          ((v.dropWhile p).reverse.takeWhile p).reverse := by
      conv_lhs => rw [← (v.dropWhile p).reverse_reverse,
        ← List.takeWhile_append_dropWhile (p := p) (l := (v.dropWhile p).reverse)]
      rw [List.reverse_append]
    conv_lhs => rw [← List.takeWhile_append_dropWhile (p := p) (l := v), hm]
    simp [stripBoth, List.append_assoc]
  · exact fun c hc => List.mem_takeWhile_imp hc
  · intro c hc
    rw [List.mem_reverse] at hc
    exact List.mem_takeWhile_imp hc
  · intro c hc
    unfold stripBoth at hc
    rw [List.head?_reverse] at hc
    have h2 : (v.dropWhile p).reverse.getLast? = some c := by
      conv_lhs => rw [← List.takeWhile_append_dropWhile (p := p)
        (l := (v.dropWhile p).reverse)]
      rw [List.getLast?_append, hc]
      rfl
    rw [List.getLast?_reverse] at h2
    exact head_dropWhile_false p v c h2
  · intro c hc
    unfold stripBoth at hc
    rw [List.getLast?_reverse] at hc
    exact head_dropWhile_false p (v.dropWhile p).reverse c hc

theorem stripWs_eq_self {l : List Char}
    (h1 : ∀ c, l.head? = some c → isPyWs c = false)
    (h2 : ∀ c, l.getLast? = some c → isPyWs c = false) :
    stripWs l = l := by
  unfold stripWs stripBoth
  rw [dropWhile_of_head_false h1,
    dropWhile_of_head_false (fun c hc => h2 c (by rwa [List.head?_reverse] at hc))]
  exact l.reverse_reverse

/-- Stripping quotes from a value wrapped in one pair of quotes whose
inner text has no quote character at either end yields the inner text. -/
theorem stripQuotes_wrapped (q : Char) (s : List Char) (hq : isQuote q = true)
    (hs1 : ∀ c, s.head? = some c → isQuote c = false)
    (hs2 : ∀ c, s.getLast? = some c → isQuote c = false) :
    stripQuotes (q :: (s ++ [q])) = s := by
  unfold stripQuotes stripBoth
  rw [List.dropWhile_cons_of_pos (by simp [hq])]
  cases s with
  | nil => simp [hq]
  | cons a t =>
    rw [dropWhile_of_head_false (l := (a :: t) ++ [q])
      (by intro x hx; cases hx; exact hs1 a rfl)]
    rw [show ((a :: t) ++ [q]).reverse = q :: (a :: t).reverse by simp]
    rw [List.dropWhile_cons_of_pos (by simp [hq])]
    rw [dropWhile_of_head_false
      (by intro x hx; rw [List.head?_reverse] at hx; exact hs2 x hx)]
    exact (a :: t).reverse_reverse

theorem splitFirstEq_no_eq (k v : List Char) (h : '=' ∉ k) :
    splitFirstEq (k ++ '=' :: v) = some (k, v) := by
  induction k with
  | nil => simp [splitFirstEq]
  | cons c t ih =>
    have hc : ¬(c = '=') := fun hh => h (by simp [hh])
    simp [splitFirstEq, hc, ih fun hm => h (List.mem_cons_of_mem _ hm)]

/-- C10: The value stripping removes every leading and trailing quote
character — single or double, matched or unmatched, in any combination —
and preserves quote characters in the interior: the raw value splits as
quote-prefix ++ stored value ++ quote-suffix, and the stored value has no
quote character at either end. -/
theorem c10_strip_removes_all_edge_quotes (v : List Char) :
    ∃ pre suf, v = pre ++ stripQuotes v ++ suf ∧
      (∀ c ∈ pre, isQuote c = true) ∧ (∀ c ∈ suf, isQuote c = true) ∧
      (∀ c, (stripQuotes v).head? = some c → isQuote c = false) ∧
      (∀ c, (stripQuotes v).getLast? = some c → isQuote c = false) :=
  stripBoth_spec isQuote v

/-- Counterexample for C7 as stated: for the line `K="'a'"` the value is
wrapped in a matching pair of double quotes with inner text `'a'`, yet
the stored value is `a` — the inner text's own surrounding single quotes
are stripped as well. -/
theorem c7_counterexample :
    parseKVL ('K' :: '=' :: dq :: sq :: 'a' :: sq :: [dq]) = some (['K'], ['a']) ∧
    (['a'] : List Char) ≠ [sq, 'a', sq] := by decide

/-- C7 (amended): For every line `KEY=VALUE` whose value is wrapped in
a matching pair of single or double quotes, the stored value is the inner
text provided the inner text itself has no quote character at either end
(otherwise those edge quotes are removed as well, see the
counterexample); the key must be non-empty, contain no `=`, and not start
with whitespace or `#`. -/
theorem c7_matching_quotes_stripped (k s : List Char) (q : Char)
    (hq : q = dq ∨ q = sq)
    (hk : k ≠ [])
    (hkeq : '=' ∉ k)
    (hkhead : ∀ c, k.head? = some c → (isPyWs c = false ∧ c ≠ '#'))
    (hs1 : ∀ c, s.head? = some c → isQuote c = false)
    (hs2 : ∀ c, s.getLast? = some c → isQuote c = false) :
    parseKVL (k ++ '=' :: q :: (s ++ [q])) = some (k, s) := by
  obtain ⟨c, t, rfl⟩ : ∃ c t, k = c :: t := by
    cases k with
    | nil => exact absurd rfl hk
    | cons c t => exact ⟨c, t, rfl⟩
  have hcw := hkhead c rfl
  have hquote : isQuote q = true := by
    rcases hq with h | h <;> subst h <;> decide
  have hqpw : isPyWs q = false := by
    rcases hq with h | h <;> subst h <;> decide
  have hlast : ((c :: t) ++ '=' :: q :: (s ++ [q])).getLast? = some q := by
    rw [show (c :: t) ++ '=' :: q :: (s ++ [q]) = ((c :: t) ++ '=' :: q :: s) ++ [q] by simp]
    exact List.getLast?_concat _
  have hstrip : stripWs ((c :: t) ++ '=' :: q :: (s ++ [q])) =
      (c :: t) ++ '=' :: q :: (s ++ [q]) :=
    stripWs_eq_self
      (by intro x hx; cases hx; exact hcw.1)
      (by intro x hx; rw [hlast] at hx; cases hx; exact hqpw)
  have hsp := splitFirstEq_no_eq (c :: t) (q :: (s ++ [q])) hkeq
  simp only [List.cons_append] at hsp
  simp only [parseKVL, hstrip]
  simp [hcw.2, hsp, stripQuotes_wrapped q s hquote hs1 hs2]

/-- Witness for the amended C7: `K="ab"` stores `ab`. -/
theorem c7_witness :
    parseKVL (['K'] ++ '=' :: dq :: (['a', 'b'] ++ [dq])) = some (['K'], ['a', 'b']) :=
  c7_matching_quotes_stripped ['K'] ['a', 'b'] dq (Or.inl rfl) (by decide) (by decide)
    (by intro c hc; cases hc; exact ⟨by decide, by decide⟩)
    (by intro c hc; cases hc; decide)
    (by intro c hc; cases hc; decide)

end ExportCert
